import Mathlib

/-!
Verification of the wheel build-summary generator (`generate_summary.py`).

This file shallowly embeds the script's pure core: the wheel-filename parser,
the tag decoder (`WheelInfo.python_version`, `WheelInfo.platform_name`), the
version orderer (`sort_versions`), the requirement-expression resolver
(`parse_version_requirement`) and the requirement validator
(`validate_requirements`), together with models of the Python standard-library
behaviours the script relies on (regular-expression prefix matching for the
concrete patterns used, `str` operations, `json.loads` on the JSON subset
relevant here, `fnmatch` restricted to the `*`/`?` wildcards, and the
exceptions that escape `validate_requirements` when the decoded JSON is not a
sequence of objects).

Machine integers do not occur; all Python integers involved are non-negative
and unbounded, modelled as `Nat`.
-/

namespace WheelsCI

/-! ### Models of Python string primitives -/

/-- `listStartsWith p l` models `l` starting with prefix `p` (Python `str.startswith`). -/
def listStartsWith (pre l : List Char) : Bool :=
  match pre, l with
  | [], _ => true
  | p :: ps, t :: ts => if p = t then listStartsWith ps ts else false
  | _ :: _, [] => false

/-- `listContainsSub p l` models Python's substring test `p in l`. -/
def listContainsSub (p : List Char) : List Char → Bool
  | [] => listStartsWith p []
  | c :: rest => listStartsWith p (c :: rest) || listContainsSub p rest

/-- Python `s.startswith(p)`. -/
def pyStartsWith (s p : String) : Bool := listStartsWith p.toList s.toList

/-- Python `s.endswith(p)`. -/
def pyEndsWith (s p : String) : Bool := listStartsWith p.toList.reverse s.toList.reverse

/-- Python `p in s` (substring containment). -/
def pyContains (s p : String) : Bool := listContainsSub p.toList s.toList

/-- Python `s.lower()` (ASCII-relevant part; the tags involved are ASCII). -/
def pyLower (s : String) : String := String.mk (s.toList.map Char.toLower)

/-- Characters stripped by Python `str.strip()` (the ASCII whitespace set). -/
def isPySpace (c : Char) : Bool :=
  List.contains [' ', '\t', '\n', '\x0d', '\x0b', '\x0c'] c

/-- Python `s.strip()`. -/
def pyStrip (s : String) : String :=
  String.mk (((s.toList.dropWhile isPySpace).reverse.dropWhile isPySpace).reverse)

/-- Python `s[:-n]` for `n ≤ len(s)` (used only in that situation). -/
def pyDropRight (s : String) (n : Nat) : String :=
  String.mk (s.toList.take (s.toList.length - n))

/-- Python `s.split(sep)` for a one-character separator `sep`. -/
def pySplit (sep : Char) : List Char → List (List Char)
  | [] => [[]]
  | c :: rest =>
    match pySplit sep rest with
    | [] => [[]]
    | seg :: segs => if c == sep then [] :: seg :: segs else (c :: seg) :: segs

/-- Python `s.split(sep, 1)`: split at the first occurrence of `sep` only. -/
def pySplitFirst (sep : Char) : List Char → List Char × Option (List Char)
  | [] => ([], none)
  | c :: rest =>
    if c == sep then ([], some rest)
    else
      match pySplitFirst sep rest with
      | (seg, r) => (c :: seg, r)

/-- Python `s.count(c)` for a one-character needle. -/
def pyCountChar (s : String) (c : Char) : Nat := s.toList.count c

/-- Python `s.index(c)`: index of the first occurrence (only used when present). -/
def pyIndexOf (s : String) (c : Char) : Nat := s.toList.takeWhile (· != c) |>.length

/-- Python `", ".join(l)`. -/
def joinComma (l : List String) : String := String.intercalate ", " l

/-! ### Models of the regular-expression matches used by the script

The script only ever calls `re.match` (anchored at the start, matching a
prefix) with the concrete patterns `cp(\d)(\d+)t`, `cp(\d)(\d+)`,
`pp(\d)(\d+)`, `PyPy(\d+)\.(\d+)`, `(\d+)\.(\d+)t` and `(\d+)\.(\d+)`.
For these patterns a greedy `(\d+)` that must be followed by a non-digit
literal (`t`, `.` or end of pattern) matches exactly the maximal digit run at
that position, so every one of them is equivalent to the first-match functions
below. -/

/-- Maximal digit run at the head of the list, and the remainder. -/
def takeDigits : List Char → List Char × List Char
  | [] => ([], [])
  | c :: cs =>
    if c.isDigit then
      match takeDigits cs with
      | (d, r) => (c :: d, r)
    else ([], c :: cs)

/-- Python `int` on a non-empty digit string (leading zeros allowed). -/
def natOfDigits (l : List Char) : Nat :=
  l.foldl (fun n c => 10 * n + (c.toNat - 48)) 0

/-- `re.match(r"cp(\d)(\d+)t", s)`: returns the two groups on success. -/
def matchCpT (s : String) : Option (Char × String) :=
  match s.toList with
  | 'c' :: 'p' :: c :: rest =>
    if c.isDigit then
      match takeDigits rest with
      | (d, r) =>
        if d.isEmpty then none
        else
          match r with
          | 't' :: _ => some (c, String.mk d)
          | _ => none
    else none
  | _ => none

/-- `re.match(r"cp(\d)(\d+)", s)`: returns the two groups on success. -/
def matchCp (s : String) : Option (Char × String) :=
  match s.toList with
  | 'c' :: 'p' :: c :: rest =>
    if c.isDigit then
      match takeDigits rest with
      | (d, _) => if d.isEmpty then none else some (c, String.mk d)
    else none
  | _ => none

/-- `re.match(r"pp(\d)(\d+)", s)`: returns the two groups on success. -/
def matchPp (s : String) : Option (Char × String) :=
  match s.toList with
  | 'p' :: 'p' :: c :: rest =>
    if c.isDigit then
      match takeDigits rest with
      | (d, _) => if d.isEmpty then none else some (c, String.mk d)
    else none
  | _ => none

/-- `re.match(r"(\d+)\.(\d+)", s)` followed by `map(int, groups)`. -/
def matchNumDotNum (s : String) : Option (Nat × Nat) :=
  match takeDigits s.toList with
  | (d1, r1) =>
    if d1.isEmpty then none
    else
      match r1 with
      | '.' :: r2 =>
        match takeDigits r2 with
        | (d2, _) => if d2.isEmpty then none else some (natOfDigits d1, natOfDigits d2)
      | _ => none

/-- `re.match(r"(\d+)\.(\d+)t", s)` followed by `map(int, groups)`. -/
def matchNumDotNumT (s : String) : Option (Nat × Nat) :=
  match takeDigits s.toList with
  | (d1, r1) =>
    if d1.isEmpty then none
    else
      match r1 with
      | '.' :: r2 =>
        match takeDigits r2 with
        | (d2, r3) =>
          if d2.isEmpty then none
          else
            match r3 with
            | 't' :: _ => some (natOfDigits d1, natOfDigits d2)
            | _ => none
      | _ => none

/-- `re.match(r"PyPy(\d+)\.(\d+)", s)` followed by `map(int, groups)`. -/
def matchPyPyNum (s : String) : Option (Nat × Nat) :=
  match s.toList with
  | 'P' :: 'y' :: 'P' :: 'y' :: rest => matchNumDotNum (String.mk rest)
  | _ => none

/-! ### The tag decoder (`WheelInfo`) -/

/-- Parsed wheel file information (`WheelInfo` dataclass). -/
structure WheelInfo where
  python_tag : String
  abi_tag : String
  platform_tag : String

/-- `WheelInfo.python_version`: decode the human-readable Python version from
the python tag, trying the free-threaded pattern on the python tag, then on
the abi tag, then the plain CPython pattern, then the PyPy pattern, then
falling back to the raw python tag. -/
def WheelInfo.python_version (w : WheelInfo) : String :=
  match matchCpT w.python_tag with
  | some (major, minor) => toString major ++ "." ++ minor ++ "t"
  | none =>
  match matchCpT w.abi_tag with
  | some (major, minor) => toString major ++ "." ++ minor ++ "t"
  | none =>
  match matchCp w.python_tag with
  | some (major, minor) => toString major ++ "." ++ minor
  | none =>
  match matchPp w.python_tag with
  | some (major, minor) => "PyPy" ++ toString major ++ "." ++ minor
  | none => w.python_tag

/-- `WheelInfo._extract_arch`: extract the architecture from a platform string. -/
def WheelInfo.extract_arch (platform : String) : String :=
  if pyContains platform "x86_64" || pyContains platform "amd64" then "x86_64"
  else if pyContains platform "aarch64" || pyContains platform "arm64" then "aarch64"
  else if pyContains platform "armv7" || pyContains platform "armv7l" then "armv7"
  else if pyContains platform "ppc64le" then "ppc64le"
  else if pyContains platform "s390x" then "s390x"
  else if pyContains platform "i686" || pyContains platform "x86" || pyContains platform "i386" then "x86"
  else "unknown"

/-- `WheelInfo.platform_name`: decode the human-readable platform name from
the (lower-cased) platform tag. -/
def WheelInfo.platform_name (w : WheelInfo) : String :=
  let platform := pyLower w.platform_tag
  if pyStartsWith platform "macosx" then
    if pyContains platform "arm64" || pyContains platform "aarch64" then "macOS ARM64"
    else if pyContains platform "x86_64" || pyContains platform "intel" then "macOS x86_64"
    else if pyContains platform "universal2" then "macOS Universal2"
    else "macOS"
  else if pyStartsWith platform "win" then
    if pyContains platform "amd64" || pyContains platform "x64" then "Windows x64"
    else if pyContains platform "arm64" || pyContains platform "aarch64" then "Windows ARM64"
    else if pyContains platform "32" || pyContains platform "x86" then "Windows x86"
    else "Windows"
  else if pyContains platform "manylinux" then "Linux " ++ WheelInfo.extract_arch platform
  else if pyContains platform "musllinux" then "musllinux " ++ WheelInfo.extract_arch platform
  else if pyContains platform "linux" then "Linux " ++ WheelInfo.extract_arch platform
  else platform

/-! ### The filename parser -/

/-- `parse_wheel_filename`: reject unless the name ends in `.whl`; strip the
extension, split on `-`; reject if fewer than 5 segments; otherwise the last
three segments are `(python_tag, abi_tag, platform_tag)`. -/
def parse_wheel_filename (filename : String) : Option WheelInfo :=
  if pyEndsWith filename ".whl" then
    let name := pyDropRight filename 4
    let parts := pySplit '-' name.toList
    if parts.length < 5 then none
    else
      match parts.reverse with
      | plat :: abi :: py :: _ =>
        some { python_tag := String.mk py, abi_tag := String.mk abi,
               platform_tag := String.mk plat }
      | _ => none
  else none

/-! ### The version orderer (`sort_versions`) -/

/-- `version_sort_key`: sort key `(family, major, minor, freethread)` for a
version label; PyPy labels get family 1, free-threaded labels freethread 1,
unparseable labels `(99, 0, 0, 0)`. -/
def version_sort_key (version : String) : Nat × Nat × Nat × Nat :=
  match (if pyStartsWith version "PyPy" then matchPyPyNum version else none) with
  | some (major, minor) => (1, major, minor, 0)
  | none =>
  match (if pyEndsWith version "t" then matchNumDotNumT version else none) with
  | some (major, minor) => (0, major, minor, 1)
  | none =>
  match matchNumDotNum version with
  | some (major, minor) => (0, major, minor, 0)
  | none => (99, 0, 0, 0)

/-- Lexicographic order on the 4-component sort keys (Python tuple `<=`). -/
def keyLe (a b : Nat × Nat × Nat × Nat) : Bool :=
  decide (a.1 < b.1) ||
    (decide (a.1 = b.1) && (decide (a.2.1 < b.2.1) ||
      (decide (a.2.1 = b.2.1) && (decide (a.2.2.1 < b.2.2.1) ||
        (decide (a.2.2.1 = b.2.2.1) && decide (a.2.2.2 ≤ b.2.2.2))))))

/-- Comparison of version labels by their sort keys. -/
def version_le (a b : String) : Bool := keyLe (version_sort_key a) (version_sort_key b)

/-- Stable insertion of `x` into a list sorted by `le`: `x` goes after every
element `y` with `le y x` (so elements with equal keys keep their original
relative order, as Python's stable `sorted` guarantees). -/
def insertLe (le : α → α → Bool) (x : α) : List α → List α
  | [] => [x]
  | y :: ys => if le y x then y :: insertLe le x ys else x :: y :: ys

/-- Stable sort by `le` (insertion sort; agrees with Python's stable
`sorted` for a total preorder `le`). -/
def stableSort (le : α → α → Bool) (l : List α) : List α :=
  l.foldl (fun acc x => insertLe le x acc) []

/-- `sort_versions`: sort version labels by `version_sort_key`
(Python `sorted(versions, key=version_sort_key)`). -/
def sort_versions (versions : List String) : List String :=
  stableSort version_le versions

/-! ### The requirement-expression resolver (`parse_version_requirement`) -/

/-- One iteration of the `max_minor` loop of the open-ended branches: raise
the bound when the version parses with the same major and a larger minor. -/
def maxStep (parse : String → Option (Nat × Nat)) (major max_minor : Nat)
    (ver : String) : Nat :=
  match parse ver with
  | some (ver_major, ver_minor) =>
    if ver_major = major ∧ max_minor < ver_minor then ver_minor else max_minor
  | none => max_minor

/-- The `max_minor` loop of the open-ended branches over the available
versions (initial bound: the requirement's own minor). -/
def maxAvailMinor (parse : String → Option (Nat × Nat)) (major max_minor : Nat) :
    List String → Nat
  | [] => max_minor
  | ver :: rest => maxAvailMinor parse major (maxStep parse major max_minor ver) rest

/-- `parse_version_requirement`: expand one requirement token into the list of
version labels it denotes, given the observed versions (which bound the
open-ended forms). -/
def parse_version_requirement (requirement : String) (available_versions : List String) :
    List String :=
  let requirement := pyStrip requirement
  if pyStartsWith requirement "PyPy" then
    let openRes : Option (List String) :=
      if pyEndsWith requirement "+" then
        match matchPyPyNum (pyStrip (pyDropRight requirement 1)) with
        | some (major, minor_start) =>
          let max_minor := maxAvailMinor matchPyPyNum major minor_start available_versions
          some ((List.range' minor_start (max_minor + 2 - minor_start)).map
            (fun minor => "PyPy" ++ toString major ++ "." ++ toString minor))
        | none => none
      else none
    match openRes with
    | some r => r
    | none =>
      let rangeRes : Option (List String) :=
        if pyCountChar requirement '-' == 1 && Nat.blt 4 (pyIndexOf requirement '-') then
          match pySplitFirst '-' requirement.toList with
          | (start_part, some e) =>
            match matchPyPyNum (pyStrip (String.mk start_part)),
                matchNumDotNum (pyStrip (String.mk e)) with
            | some (major, minor_start), some (_, minor_end) =>
              some ((List.range' minor_start (minor_end + 1 - minor_start)).map
                (fun minor => "PyPy" ++ toString major ++ "." ++ toString minor))
            | _, _ => none
          | (_, none) => none
        else none
      match rangeRes with
      | some r => r
      | none => [requirement]
  else
    let openRes : Option (List String) :=
      if pyEndsWith requirement "+" then
        match matchNumDotNum (pyStrip (pyDropRight requirement 1)) with
        | some (major, minor_start) =>
          let max_minor := maxAvailMinor matchNumDotNum major minor_start available_versions
          some ((List.range' minor_start (max_minor + 2 - minor_start)).map
            (fun minor => toString major ++ "." ++ toString minor))
        | none => none
      else none
    match openRes with
    | some r => r
    | none =>
      let rangeRes : Option (List String) :=
        if pyContains requirement "-" then
          match pySplitFirst '-' requirement.toList with
          | (s, some e) =>
            match matchNumDotNum (pyStrip (String.mk s)),
                matchNumDotNum (pyStrip (String.mk e)) with
            | some (major, minor_start), some (_, minor_end) =>
              some ((List.range' minor_start (minor_end + 1 - minor_start)).map
                (fun minor => toString major ++ "." ++ toString minor))
            | _, _ => none
          | (_, none) => none
        else none
      match rangeRes with
      | some r => r
      | none => [requirement]

/-! ### Model of `json.loads`

Decoded JSON values, with numbers kept as their lexemes (only their
truthiness is ever consumed). Python's `json.loads` also accepts the
non-standard `NaN`, `Infinity` and `-Infinity` literals, which the model
keeps as `num` lexemes. Surrogate `\uXXXX` escapes and character classes of
`fnmatch` are outside the modelled subset. -/
inductive Json where
  | null
  | bool (b : Bool)
  | num (lexeme : String)
  | str (s : String)
  | arr (elems : List Json)
  | obj (entries : List (String × Json))

/-- The exceptions that can escape `validate_requirements`. -/
inductive PyErr where
  | typeError
  | attributeError
deriving DecidableEq

/-- JSON inter-token whitespace. -/
def jsonWs (c : Char) : Bool := List.contains [' ', '\t', '\n', '\x0d'] c

/-- Drop JSON whitespace. -/
def skipWs (l : List Char) : List Char := l.dropWhile jsonWs

/-- Value of a hexadecimal digit. -/
def hexVal (c : Char) : Option Nat :=
  if c.isDigit then some (c.toNat - 48)
  else if 'a' ≤ c ∧ c ≤ 'f' then some (c.toNat - 87)
  else if 'A' ≤ c ∧ c ≤ 'F' then some (c.toNat - 55)
  else none

/-- Single-character JSON string escapes, as a lookup table. -/
def escChar (e : Char) : Option Char :=
  List.lookup e
    [('"', '"'), ('\\', '\\'), ('/', '/'), ('b', '\x08'), ('f', '\x0c'),
     ('n', '\n'), ('r', '\x0d'), ('t', '\t')]

/-- Parse the body of a JSON string after the opening quote; returns the
content and the remainder after the closing quote. -/
def parseJStringBody : Nat → List Char → Option (List Char × List Char)
  | 0, _ => none
  | fuel + 1, cs =>
    match cs with
    | [] => none
    | c :: rest =>
      if c == '"' then some ([], rest)
      else if c == '\\' then
        match rest with
        | [] => none
        | e :: rest2 =>
          if e == 'u' then
            match rest2 with
            | h1 :: h2 :: h3 :: h4 :: rest3 =>
              match hexVal h1, hexVal h2, hexVal h3, hexVal h4 with
              | some a, some b, some c2, some d =>
                let n := ((a * 16 + b) * 16 + c2) * 16 + d
                if n < 55296 ∨ 57343 < n then
                  match parseJStringBody fuel rest3 with
                  | some (out, r) => some (Char.ofNat n :: out, r)
                  | none => none
                else none
              | _, _, _, _ => none
            | _ => none
          else
            match escChar e with
            | some c2 =>
              match parseJStringBody fuel rest2 with
              | some (out, r) => some (c2 :: out, r)
              | none => none
            | none => none
      else if c.toNat < 32 then none
      else
        match parseJStringBody fuel rest with
        | some (out, r) => some (c :: out, r)
        | none => none

/-- JSON number grammar: integer part (no leading zeros). -/
def parseIntPart : List Char → Option (List Char × List Char)
  | [] => none
  | c :: rest =>
    if c == '0' then some (['0'], rest)
    else if c.isDigit then
      match takeDigits rest with
      | (d, r) => some (c :: d, r)
    else none

/-- JSON number grammar: optional fractional part. -/
def parseFracPart : List Char → Option (List Char × List Char)
  | '.' :: rest =>
    match takeDigits rest with
    | (d, r) => if d.isEmpty then none else some ('.' :: d, r)
  | cs => some ([], cs)

/-- JSON number grammar: optional exponent part. -/
def parseExpPart : List Char → Option (List Char × List Char)
  | [] => some ([], [])
  | c :: rest =>
    if c == 'e' || c == 'E' then
      match
        (match rest with
          | s :: r => if s == '+' || s == '-' then ([s], r) else (([] : List Char), s :: r)
          | [] => ([], [])) with
      | (sgn, rest2) =>
        match takeDigits rest2 with
        | (d, r) => if d.isEmpty then none else some (c :: (sgn ++ d), r)
    else some ([], c :: rest)

/-- Lex a JSON number, returning its lexeme and the remainder. -/
def parseJNumber (cs : List Char) : Option (List Char × List Char) :=
  match
    (match cs with
      | '-' :: r => ([('-' : Char)], r)
      | _ => (([] : List Char), cs)) with
  | (sgn, cs1) =>
    match parseIntPart cs1 with
    | none => none
    | some (ip, r1) =>
      match parseFracPart r1 with
      | none => none
      | some (fp, r2) =>
        match parseExpPart r2 with
        | none => none
        | some (ep, r3) => some (sgn ++ ip ++ fp ++ ep, r3)

mutual

/-- Parse one JSON value (fuel-indexed recursive-descent parser). -/
def parseJValue : Nat → List Char → Option (Json × List Char)
  | 0, _ => none
  | fuel + 1, cs =>
    match skipWs cs with
    | [] => none
    | c :: rest =>
      if c == '{' then
        match skipWs rest with
        | '}' :: r => some (.obj [], r)
        | cs2 => parseJObjLoop fuel cs2 []
      else if c == '[' then
        match skipWs rest with
        | ']' :: r => some (.arr [], r)
        | cs2 => parseJArrLoop fuel cs2 []
      else if c == '"' then
        match parseJStringBody (rest.length + 1) rest with
        | some (body, r) => some (.str (String.mk body), r)
        | none => none
      else if c == 't' then
        match rest with
        | 'r' :: 'u' :: 'e' :: r => some (.bool true, r)
        | _ => none
      else if c == 'f' then
        match rest with
        | 'a' :: 'l' :: 's' :: 'e' :: r => some (.bool false, r)
        | _ => none
      else if c == 'n' then
        match rest with
        | 'u' :: 'l' :: 'l' :: r => some (.null, r)
        | _ => none
      else if c == 'N' then
        match rest with
        | 'a' :: 'N' :: r => some (.num "NaN", r)
        | _ => none
      else if c == 'I' then
        match rest with
        | 'n' :: 'f' :: 'i' :: 'n' :: 'i' :: 't' :: 'y' :: r => some (.num "Infinity", r)
        | _ => none
      else if c == '-' then
        match rest with
        | 'I' :: 'n' :: 'f' :: 'i' :: 'n' :: 'i' :: 't' :: 'y' :: r => some (.num "-Infinity", r)
        | _ =>
          match parseJNumber (c :: rest) with
          | some (lex, r) => some (.num (String.mk lex), r)
          | none => none
      else
        match parseJNumber (c :: rest) with
        | some (lex, r) => some (.num (String.mk lex), r)
        | none => none

/-- Parse the elements of a non-empty JSON array after the opening bracket. -/
def parseJArrLoop : Nat → List Char → List Json → Option (Json × List Char)
  | 0, _, _ => none
  | fuel + 1, cs, acc =>
    match parseJValue fuel cs with
    | none => none
    | some (v, r) =>
      match skipWs r with
      | ',' :: r2 => parseJArrLoop fuel r2 (acc ++ [v])
      | ']' :: r2 => some (.arr (acc ++ [v]), r2)
      | _ => none

/-- Parse the members of a non-empty JSON object after the opening brace. -/
def parseJObjLoop : Nat → List Char → List (String × Json) → Option (Json × List Char)
  | 0, _, _ => none
  | fuel + 1, cs, acc =>
    match skipWs cs with
    | '"' :: rest =>
      match parseJStringBody (rest.length + 1) rest with
      | some (key, r) =>
        match skipWs r with
        | ':' :: r2 =>
          match parseJValue fuel r2 with
          | none => none
          | some (v, r3) =>
            match skipWs r3 with
            | ',' :: r4 => parseJObjLoop fuel r4 (acc ++ [(String.mk key, v)])
            | '}' :: r4 => some (.obj (acc ++ [(String.mk key, v)]), r4)
            | _ => none
        | _ => none
      | none => none
    | _ => none

end

/-- `json.loads`: parse a whole string as one JSON document. -/
def jsonLoads (s : String) : Except Unit Json :=
  match parseJValue (s.length + 1) s.toList with
  | some (v, r) => if (skipWs r).isEmpty then .ok v else .error ()
  | none => .error ()

/-! ### Python-semantics adapters used by the matrix-mode validator -/

/-- Python truthiness of a decoded JSON value. -/
def Json.truthy : Json → Bool
  | .null => false
  | .bool b => b
  | .num lex => lex.toList.any (fun c => c.isDigit && c != '0') || pyContains lex "N" || pyContains lex "I"
  | .str s => s != ""
  | .arr xs => !xs.isEmpty
  | .obj kvs => !kvs.isEmpty

/-- Python iteration (`for req in x`) over a decoded JSON value: lists yield
their elements, strings their characters, dicts their keys; anything else
raises `TypeError`. -/
def pyIter : Json → Except PyErr (List Json)
  | .arr xs => .ok xs
  | .str s => .ok (s.toList.map (fun c => .str (String.mk [c])))
  | .obj kvs => .ok (((kvs.map Prod.fst).eraseDups).map Json.str)
  | _ => .error .typeError

/-- Python `req.get(key, default)` on a decoded JSON value: for dicts the last
binding of `key` wins (duplicate JSON keys overwrite); on anything else `.get`
raises `AttributeError`. -/
def pyGet (j : Json) (key : String) (default : Json) : Except PyErr Json :=
  match j with
  | .obj kvs =>
    match kvs.reverse.find? (fun kv => kv.1 == key) with
    | some kv => .ok kv.2
    | none => .ok default
  | _ => .error .attributeError

/-- A decoded JSON value used as the `fnmatch` pattern: non-strings raise
`TypeError` inside `fnmatch`. -/
def asPatternStr : Json → Except PyErr String
  | .str s => .ok s
  | _ => .error .typeError

/-- A decoded JSON value on which `.split` is called: non-strings raise
`AttributeError`. -/
def asSplitStr : Json → Except PyErr String
  | .str s => .ok s
  | _ => .error .attributeError

/-- Glob matching for the `*` and `?` wildcards, fuel-indexed: every
recursive call shortens pattern or text, so fuel `|pattern| + |text| + 1`
is always sufficient. -/
def globMatchAux : Nat → List Char → List Char → Bool
  | 0, _, _ => false
  | fuel + 1, pattern, text =>
    match pattern, text with
    | [], [] => true
    | [], _ :: _ => false
    | '*' :: ps, [] => globMatchAux fuel ps []
    | '*' :: ps, c :: ts => globMatchAux fuel ps (c :: ts) || globMatchAux fuel ('*' :: ps) ts
    | '?' :: _, [] => false
    | '?' :: ps, _ :: ts => globMatchAux fuel ps ts
    | _ :: _, [] => false
    | p :: ps, c :: ts => p == c && globMatchAux fuel ps ts

/-- `fnmatch.fnmatch(name, pattern)` restricted to the `*` and `?` wildcards
(POSIX `normcase` is the identity; character classes are not modelled). -/
def fnmatch (name pattern : String) : Bool :=
  globMatchAux (pattern.length + name.length + 1) pattern.toList name.toList

/-! ### The requirement validator (`validate_requirements`) -/

/-- The body of the matrix-mode `for req in matrix_requirements` loop for one
record: the messages this record contributes (a skipped record contributes
none), or the exception Python raises on it. -/
def processRecord (matrix : List (String × List String)) (platforms versions : List String)
    (req : Json) : Except PyErr (List String) := do
  let platformJ ← pyGet req "platform" (Json.str "")
  let versionsJ ← pyGet req "versions" (Json.str "")
  if platformJ.truthy = false then
    pure []
  else do
    let platform_pattern ← asPatternStr platformJ
    let matching_platforms := platforms.filter (fun p => fnmatch p platform_pattern)
    if matching_platforms.isEmpty then
      pure ["No platforms found matching pattern: " ++ platform_pattern]
    else do
      let required_versions_str ← asSplitStr versionsJ
      let required_versions_raw :=
        ((pySplit ',' required_versions_str.toList).map (fun v => pyStrip (String.mk v))).filter
          (fun v => v != "")
      let required_versions :=
        (required_versions_raw.map (fun r => parse_version_requirement r versions)).flatten
      pure (matching_platforms.foldl
        (fun errs platform =>
          let platform_versions := (matrix.lookup platform).getD []
          let missing := required_versions.filter (fun v => !platform_versions.contains v)
          if missing.isEmpty then errs
          else errs ++ ["Platform \x27" ++ platform ++ "\x27 missing required versions: " ++
            joinComma missing])
        [])

/-- The whole matrix-mode loop: messages accumulated over all records in
order, or the first exception raised. -/
def processRecords (matrix : List (String × List String)) (platforms versions : List String)
    (reqs : List Json) : Except PyErr (List String) :=
  reqs.foldlM
    (fun errs req => do
      let e ← processRecord matrix platforms versions req
      pure (errs ++ e))
    []

/-- Flat mode: required platforms missing from the observed platform set. -/
def missing_platforms (require_platforms : String) (platforms : List String) : List String :=
  (((pySplit ',' require_platforms.toList).map (fun p => pyStrip (String.mk p))).filter
    (fun p => p != "")).filter (fun p => !platforms.contains p)

/-- Flat mode: all resolved required-version labels, in resolution order. -/
def flat_resolved_versions (require_python_versions : String) (versions : List String) :
    List String :=
  ((((pySplit ',' require_python_versions.toList).map (fun v => pyStrip (String.mk v))).filter
    (fun v => v != "")).map (fun req => parse_version_requirement req versions)).flatten

/-- Flat mode: resolved required versions flagged missing (absent from the
observed set and not ending in the free-threaded suffix `t`). -/
def missing_versions (require_python_versions : String) (versions : List String) : List String :=
  (flat_resolved_versions require_python_versions versions).filter
    (fun v => !versions.contains v && !pyEndsWith v "t")

/-- Flat mode: messages contributed by the free-threaded policy. -/
def freethreaded_errors (require_freethreaded : String) (versions : List String) : List String :=
  if require_freethreaded != "" && require_freethreaded != "none" then
    if require_freethreaded == "3.14" then
      if !versions.contains "3.14t" then ["Missing required free-threaded Python 3.14t"] else []
    else if require_freethreaded == "3.14+" then
      if !versions.contains "3.14t" then ["Missing required free-threaded Python 3.14t"] else []
    else if require_freethreaded == "all" then
      (versions.filter (fun v => !pyEndsWith v "t" && !pyStartsWith v "PyPy")).filterMap
        (fun version =>
          if !versions.contains (version ++ "t") then
            some ("Missing free-threaded build for Python " ++ version ++
              " (expected " ++ version ++ "t)")
          else none)
    else []
  else []

/-- Flat-mode validation: platform, version and free-threaded checks. -/
def validateFlat (platforms versions : List String)
    (require_platforms require_python_versions require_freethreaded : String) :
    Bool × List String :=
  let errors :=
    (if require_platforms != "" then
      (let mp := missing_platforms require_platforms platforms
       if !mp.isEmpty then ["Missing required platforms: " ++ joinComma mp] else [])
     else [])
    ++ (if require_python_versions != "" then
      (let mv := missing_versions require_python_versions versions
       if !mv.isEmpty then ["Missing required Python versions: " ++ joinComma mv] else [])
     else [])
    ++ freethreaded_errors require_freethreaded versions
  (errors.length == 0, errors)

/-- `validate_requirements`: matrix mode takes precedence when the structured
spec is a non-empty string; a JSON decode failure is one message and a false
verdict; a decoded value that is not a sequence of objects raises. -/
def validate_requirements (matrix : List (String × List String)) (platforms versions : List String)
    (require_platforms require_python_versions require_freethreaded require_matrix : String) :
    Except PyErr (Bool × List String) :=
  if require_matrix != "" then
    match jsonLoads require_matrix with
    | .error _ => .ok (false, ["Invalid JSON in require-matrix: " ++ require_matrix])
    | .ok j => do
      let reqs ← pyIter j
      let errors ← processRecords matrix platforms versions reqs
      pure ((errors.length == 0 : Bool), errors)
  else
    .ok (validateFlat platforms versions require_platforms require_python_versions
      require_freethreaded)

end WheelsCI

/-! Sanity examples for the decoder (from the repository's unit tests). -/

namespace WheelsCI

example : (WheelInfo.mk "cp312" "cp312" "linux_x86_64").python_version = "3.12" := by rfl
example : (WheelInfo.mk "cp314t" "cp314t" "x").python_version = "3.14t" := by rfl
example : (WheelInfo.mk "cp314" "cp314t" "x").python_version = "3.14t" := by rfl
example : (WheelInfo.mk "pp39" "pypy39_pp73" "x").python_version = "PyPy3.9" := by rfl
example : (WheelInfo.mk "cp312" "cp312" "macosx_11_0_arm64").platform_name = "macOS ARM64" := by rfl
example : (WheelInfo.mk "cp312" "cp312" "win_amd64").platform_name = "Windows x64" := by rfl
example : (WheelInfo.mk "cp312" "cp312" "win32").platform_name = "Windows x86" := by rfl
example : (WheelInfo.mk "cp312" "cp312" "win_arm64").platform_name = "Windows ARM64" := by rfl
example : (WheelInfo.mk "cp312" "cp312" "manylinux_2_17_x86_64").platform_name = "Linux x86_64" := by rfl
example : (WheelInfo.mk "cp312" "cp312" "musllinux_1_1_x86_64").platform_name = "musllinux x86_64" := by rfl
example : parse_wheel_filename "rignore-0.2.0-cp312-cp312-macosx_11_0_arm64.whl" =
    some (WheelInfo.mk "cp312" "cp312" "macosx_11_0_arm64") := by rfl
example : parse_wheel_filename "notawheel.tar.gz" = none := by rfl
example : parse_wheel_filename "invalid.whl" = none := by rfl

example : sort_versions ["3.12", "3.8", "3.14t", "PyPy3.9", "3.10", "3.14"] =
    ["3.8", "3.10", "3.12", "3.14", "3.14t", "PyPy3.9"] := by rfl

example : parse_version_requirement "3.12" ["3.12", "3.13", "3.14"] = ["3.12"] := by rfl
example : parse_version_requirement "3.10-3.13" ["3.12", "3.13", "3.14"] =
    ["3.10", "3.11", "3.12", "3.13"] := by rfl
example : parse_version_requirement "3.12+" ["3.12", "3.13", "3.14"] =
    ["3.12", "3.13", "3.14", "3.15"] := by rfl
example : parse_version_requirement "PyPy3.9" ["PyPy3.9", "PyPy3.10", "PyPy3.11"] =
    ["PyPy3.9"] := by rfl
example : parse_version_requirement "PyPy3.9-3.11" ["PyPy3.9", "PyPy3.10", "PyPy3.11"] =
    ["PyPy3.9", "PyPy3.10", "PyPy3.11"] := by rfl
example : parse_version_requirement "PyPy3.9+" ["PyPy3.9", "PyPy3.10", "PyPy3.11"] =
    ["PyPy3.9", "PyPy3.10", "PyPy3.11", "PyPy3.12"] := by rfl

example : validate_requirements [("Linux x86_64", ["3.12", "3.13", "3.14t"])] ["Linux x86_64"]
    ["3.12", "3.13", "3.14", "3.14t"] "Linux x86_64" "3.12,3.13" "3.14" "" =
    .ok (true, []) := by rfl

example : validate_requirements [("Linux x86_64", ["3.12"])] ["Linux x86_64"] ["3.12"]
    "Linux x86_64,Windows x64" "" "none" "" =
    .ok (false, ["Missing required platforms: Windows x64"]) := by rfl

example : validate_requirements [("Linux x86_64", ["3.12", "3.13"])] ["Linux x86_64"]
    ["3.12", "3.13"] "" "3.12,3.13,3.14" "none" "" =
    .ok (false, ["Missing required Python versions: 3.14"]) := by rfl

example : validate_requirements [("Linux x86_64", ["3.14"])] ["Linux x86_64"] ["3.14"]
    "" "" "3.14" "" =
    .ok (false, ["Missing required free-threaded Python 3.14t"]) := by rfl

example : validate_requirements [("Linux x86_64", ["3.12", "3.13", "3.14t"])] ["Linux x86_64"]
    ["3.12", "3.13", "3.14", "3.14t"] "" "" "all" "" =
    .ok (false, ["Missing free-threaded build for Python 3.12 (expected 3.12t)",
      "Missing free-threaded build for Python 3.13 (expected 3.13t)"]) := by rfl

example : validate_requirements
    [("Linux x86_64", ["3.12", "3.13", "3.14t", "PyPy3.9"]), ("Windows x64", ["3.12"])]
    ["Linux x86_64", "Windows x64"] ["3.12", "3.13", "3.14t", "PyPy3.9"] "" "" "none"
    "[\x7b\"platform\": \"Linux x86_64\", \"versions\": \"3.12,3.13,3.14t\"\x7d, \x7b\"platform\": \"Windows x64\", \"versions\": \"3.12\"\x7d]" =
    .ok (true, []) := by rfl

example : validate_requirements
    [("Linux x86_64", ["3.12", "3.13"]), ("Linux aarch64", ["3.12", "3.13"]),
      ("Windows x64", ["3.12"])]
    ["Linux x86_64", "Linux aarch64", "Windows x64"] ["3.12", "3.13"] "" "" "none"
    "[\x7b\"platform\": \"Linux*\", \"versions\": \"3.12,3.13\"\x7d, \x7b\"platform\": \"Windows*\", \"versions\": \"3.12\"\x7d]" =
    .ok (true, []) := by rfl

example : validate_requirements
    [("Linux x86_64", ["3.12"]), ("Windows x64", ["3.12"])]
    ["Linux x86_64", "Windows x64"] ["3.12"] "" "" "none"
    "[\x7b\"platform\": \"Linux x86_64\", \"versions\": \"3.12,3.13\"\x7d, \x7b\"platform\": \"Windows x64\", \"versions\": \"3.12\"\x7d]" =
    .ok (false, ["Platform \x27Linux x86_64\x27 missing required versions: 3.13"]) := by rfl

example : validate_requirements [] [] [] "" "" "none" "not json" =
    .ok (false, ["Invalid JSON in require-matrix: not json"]) := by rfl

example : jsonLoads "42" = .ok (Json.num "42") := by rfl

example : validate_requirements [] [] [] "" "" "none" "42" = .error PyErr.typeError := by rfl

/-! ### Helper lemmas -/

/-- A string beginning with `win` does not begin with `macosx`. -/
lemma startsWith_win_not_macosx (s : String) (h : pyStartsWith s "win" = true) :
    pyStartsWith s "macosx" = false := by
  unfold pyStartsWith at h ⊢
  cases hs : s.toList with
  | nil => rw [hs] at h; simp [listStartsWith] at h
  | cons b bs =>
    rw [hs] at h
    have hb : b = 'w' := by
      have h2 := h
      simp [listStartsWith] at h2
      exact h2.1.symm
    subst hb
    simp [listStartsWith]

/-- `maxStep` never lowers the bound. -/
lemma le_maxStep (parse : String → Option (Nat × Nat)) (major init : Nat) (v : String) :
    init ≤ maxStep parse major init v := by
  unfold maxStep
  rcases parse v with _ | ⟨vM, vm⟩
  · exact Nat.le_refl init
  · show init ≤ if vM = major ∧ init < vm then vm else init
    split_ifs with h
    · omega
    · exact Nat.le_refl init

/-- `maxStep` dominates the parsed minor of a same-major version. -/
lemma maxStep_ge (parse : String → Option (Nat × Nat)) (major init : Nat) (v : String)
    (k : Nat) (hk : parse v = some (major, k)) : k ≤ maxStep parse major init v := by
  unfold maxStep
  rw [hk]
  show k ≤ if major = major ∧ init < k then k else init
  split_ifs with h
  · exact Nat.le_refl k
  · simp at h
    omega

/-- `maxStep` either keeps the bound or moves to a parsed same-major minor. -/
lemma maxStep_cases (parse : String → Option (Nat × Nat)) (major init : Nat) (v : String) :
    maxStep parse major init v = init ∨
      parse v = some (major, maxStep parse major init v) := by
  rcases hp : parse v with _ | ⟨vM, vm⟩
  · left
    unfold maxStep
    rw [hp]
  · by_cases h : vM = major ∧ init < vm
    · have hv : maxStep parse major init v = vm := by
        unfold maxStep
        rw [hp]
        show (if vM = major ∧ init < vm then vm else init) = vm
        rw [if_pos h]
      right
      rw [hv, h.1]
    · have hv : maxStep parse major init v = init := by
        unfold maxStep
        rw [hp]
        show (if vM = major ∧ init < vm then vm else init) = init
        rw [if_neg h]
      left
      exact hv

/-- The loop bound is at least its initial value. -/
lemma le_maxAvailMinor (parse : String → Option (Nat × Nat)) (major : Nat) :
    ∀ (l : List String) (init : Nat), init ≤ maxAvailMinor parse major init l := by
  intro l
  induction l with
  | nil => intro init; exact Nat.le_refl init
  | cons v vs ih =>
    intro init
    exact Nat.le_trans (le_maxStep parse major init v) (ih (maxStep parse major init v))

/-- The loop bound dominates every parsed same-major minor in the list. -/
lemma maxAvailMinor_ge (parse : String → Option (Nat × Nat)) (major : Nat) :
    ∀ (l : List String) (init : Nat) (v : String), v ∈ l →
      ∀ k, parse v = some (major, k) → k ≤ maxAvailMinor parse major init l := by
  intro l
  induction l with
  | nil =>
    intro init v hv
    cases hv
  | cons w vs ih =>
    intro init v hv k hk
    rcases List.mem_cons.mp hv with rfl | hv'
    · exact Nat.le_trans (maxStep_ge parse major init v k hk)
        (le_maxAvailMinor parse major vs (maxStep parse major init v))
    · exact ih (maxStep parse major init w) v hv' k hk

/-- The loop bound is the initial value or a parsed same-major minor of some
list element. -/
lemma maxAvailMinor_attained (parse : String → Option (Nat × Nat)) (major : Nat) :
    ∀ (l : List String) (init : Nat),
      maxAvailMinor parse major init l = init ∨
        ∃ v ∈ l, parse v = some (major, maxAvailMinor parse major init l) := by
  intro l
  induction l with
  | nil => intro init; left; rfl
  | cons w vs ih =>
    intro init
    rcases ih (maxStep parse major init w) with h | ⟨v, hv, hp⟩
    · rcases maxStep_cases parse major init w with hs | hs
      · left
        show maxAvailMinor parse major (maxStep parse major init w) vs = init
        rw [h, hs]
      · right
        refine ⟨w, List.mem_cons_self w vs, ?_⟩
        show parse w = some (major, maxAvailMinor parse major (maxStep parse major init w) vs)
        rw [h]
        exact hs
    · right
      exact ⟨v, List.mem_cons_of_mem w hv, hp⟩

/-- `keyLe` unfolded to its propositional lexicographic form. -/
lemma keyLe_iff (a b : Nat × Nat × Nat × Nat) :
    keyLe a b = true ↔
      (a.1 < b.1 ∨ (a.1 = b.1 ∧ (a.2.1 < b.2.1 ∨ (a.2.1 = b.2.1 ∧
        (a.2.2.1 < b.2.2.1 ∨ (a.2.2.1 = b.2.2.1 ∧ a.2.2.2 ≤ b.2.2.2)))))) := by
  simp [keyLe, Bool.or_eq_true, Bool.and_eq_true, decide_eq_true_eq]

/-- `keyLe` is total. -/
lemma keyLe_total (a b : Nat × Nat × Nat × Nat) :
    keyLe a b = true ∨ keyLe b a = true := by
  rw [keyLe_iff, keyLe_iff]
  omega

/-- `keyLe` is transitive. -/
lemma keyLe_trans (a b c : Nat × Nat × Nat × Nat) :
    keyLe a b = true → keyLe b c = true → keyLe a c = true := by
  rw [keyLe_iff, keyLe_iff, keyLe_iff]
  omega

/-- `version_le` is total. -/
lemma version_le_total (a b : String) : version_le a b = true ∨ version_le b a = true :=
  keyLe_total _ _

/-- `version_le` is transitive. -/
lemma version_le_trans (a b c : String) :
    version_le a b = true → version_le b c = true → version_le a c = true :=
  keyLe_trans _ _ _

/-- Stable insertion produces a permutation of consing. -/
lemma insertLe_perm (le : α → α → Bool) (x : α) (l : List α) :
    (insertLe le x l).Perm (x :: l) := by
  induction l with
  | nil => simp [insertLe]
  | cons y ys ih =>
    by_cases h : le y x = true
    · have heq : insertLe le x (y :: ys) = y :: insertLe le x ys := by simp [insertLe, h]
      rw [heq]
      exact (ih.cons y).trans (List.Perm.swap x y ys)
    · have heq : insertLe le x (y :: ys) = x :: y :: ys := by simp [insertLe, h]
      rw [heq]

/-- The insertion-sort fold is a permutation of appending. -/
lemma stableSort_go_perm (le : α → α → Bool) :
    ∀ (l acc : List α), (l.foldl (fun acc x => insertLe le x acc) acc).Perm (acc ++ l) := by
  intro l
  induction l with
  | nil => intro acc; simp
  | cons x xs ih =>
    intro acc
    have h1 := ih (insertLe le x acc)
    have h2 : (insertLe le x acc ++ xs).Perm ((x :: acc) ++ xs) :=
      (insertLe_perm le x acc).append_right xs
    exact (h1.trans h2).trans List.perm_middle.symm

/-- `stableSort` permutes its input. -/
lemma stableSort_perm (le : α → α → Bool) (l : List α) : (stableSort le l).Perm l := by
  simpa using stableSort_go_perm le l []

/-- Stable insertion preserves sortedness for a total transitive comparison. -/
lemma insertLe_pairwise (le : α → α → Bool)
    (htrans : ∀ a b c, le a b = true → le b c = true → le a c = true)
    (htotal : ∀ a b, le a b = true ∨ le b a = true)
    (x : α) : ∀ l : List α, l.Pairwise (fun a b => le a b = true) →
      (insertLe le x l).Pairwise (fun a b => le a b = true) := by
  intro l
  induction l with
  | nil => intro _; simp [insertLe]
  | cons y ys ih =>
    intro hl
    rw [List.pairwise_cons] at hl
    obtain ⟨hy, hys⟩ := hl
    by_cases h : le y x = true
    · have heq : insertLe le x (y :: ys) = y :: insertLe le x ys := by simp [insertLe, h]
      rw [heq, List.pairwise_cons]
      refine ⟨?_, ih hys⟩
      intro z hz
      have hz' : z = x ∨ z ∈ ys := by
        have := (insertLe_perm le x ys).mem_iff.mp hz
        simpa using this
      rcases hz' with rfl | hz'
      · exact h
      · exact hy z hz'
    · have hxy : le x y = true := by
        rcases htotal x y with h1 | h1
        · exact h1
        · exact absurd h1 h
      have heq : insertLe le x (y :: ys) = x :: y :: ys := by simp [insertLe, h]
      rw [heq, List.pairwise_cons]
      constructor
      · intro z hz
        rcases List.mem_cons.mp hz with rfl | hz'
        · exact hxy
        · exact htrans x y z hxy (hy z hz')
      · rw [List.pairwise_cons]
        exact ⟨hy, hys⟩

/-- `stableSort` sorts, for a total transitive comparison. -/
lemma stableSort_pairwise (le : α → α → Bool)
    (htrans : ∀ a b c, le a b = true → le b c = true → le a c = true)
    (htotal : ∀ a b, le a b = true ∨ le b a = true)
    (l : List α) : (stableSort le l).Pairwise (fun a b => le a b = true) := by
  have aux : ∀ (l acc : List α), acc.Pairwise (fun a b => le a b = true) →
      (l.foldl (fun acc x => insertLe le x acc) acc).Pairwise (fun a b => le a b = true) := by
    intro l
    induction l with
    | nil => intro acc h; simpa using h
    | cons x xs ih =>
      intro acc h
      exact ih _ (insertLe_pairwise le htrans htotal x acc h)
  exact aux l [] (by simp)

/-! ### Claim theorems -/

/-- C1: version decoding tries the free-threaded pattern on the runtime tag,
then on the abi tag, then the plain CPython pattern, then the PyPy pattern,
then the verbatim fallback, first match winning; in particular every raw
triple with runtime tag `cp314` and abi tag `cp314t` decodes to `3.14t`
(the runtime-tag free-threaded rule does not match, the abi-tag rule does). -/
theorem claim_C1 :
    (∀ plat : String, (WheelInfo.mk "cp314" "cp314t" plat).python_version = "3.14t")
    ∧ matchCpT "cp314" = none
    ∧ matchCpT "cp314t" = some ('3', "14")
    ∧ (∀ (w : WheelInfo) (M : Char) (m : String), matchCpT w.python_tag = some (M, m) →
        w.python_version = toString M ++ "." ++ m ++ "t")
    ∧ (∀ (w : WheelInfo) (M : Char) (m : String), matchCpT w.python_tag = none →
        matchCpT w.abi_tag = some (M, m) →
        w.python_version = toString M ++ "." ++ m ++ "t")
    ∧ (∀ (w : WheelInfo) (M : Char) (m : String), matchCpT w.python_tag = none →
        matchCpT w.abi_tag = none → matchCp w.python_tag = some (M, m) →
        w.python_version = toString M ++ "." ++ m)
    ∧ (∀ (w : WheelInfo) (M : Char) (m : String), matchCpT w.python_tag = none →
        matchCpT w.abi_tag = none → matchCp w.python_tag = none →
        matchPp w.python_tag = some (M, m) →
        w.python_version = "PyPy" ++ toString M ++ "." ++ m)
    ∧ (∀ w : WheelInfo, matchCpT w.python_tag = none → matchCpT w.abi_tag = none →
        matchCp w.python_tag = none → matchPp w.python_tag = none →
        w.python_version = w.python_tag) := by
  refine ⟨fun plat => rfl, rfl, rfl, ?_, ?_, ?_, ?_, ?_⟩ <;>
    · intros
      simp_all [WheelInfo.python_version]

/-- Witness for C1 at concrete triples. -/
theorem claim_C1_witness :
    (WheelInfo.mk "cp314" "cp314t" "manylinux_2_17_x86_64").python_version = "3.14t"
    ∧ (WheelInfo.mk "cp312" "cp312" "win_amd64").python_version = toString '3' ++ "." ++ "12" :=
  ⟨claim_C1.1 "manylinux_2_17_x86_64",
   claim_C1.2.2.2.2.2.1 (WheelInfo.mk "cp312" "cp312" "win_amd64") '3' "12" rfl rfl rfl⟩

/-- C2 (counterexample): the free-threaded policy value `3.9` is a specific
version token other than `3.14`, and with `3.9t` absent from the observed
versions flat-mode validation emits no message at all, contrary to the claim
that every specific token is checked. -/
theorem claim_C2_cex :
    validate_requirements [] ["Linux x86_64"] ["3.12"] "" "" "3.9" "" = .ok (true, [])
    ∧ List.contains ["3.12"] "3.9t" = false :=
  ⟨rfl, rfl⟩

/-- C2 (amended): only the literal free-threaded policy values `3.14` and
`3.14+` trigger a flat-mode check, each checking only that the exact label
`3.14t` is present (one missing message when absent, none when present, no
range expansion); every other non-`none`, non-`all` policy value produces
no check and no message. -/
theorem claim_C2 :
    ∀ (matrix : List (String × List String)) (platforms versions : List String),
    (validate_requirements matrix platforms versions "" "" "3.14" "" =
      .ok (if versions.contains "3.14t" then (true, ([] : List String))
        else (false, ["Missing required free-threaded Python 3.14t"])))
    ∧ (validate_requirements matrix platforms versions "" "" "3.14+" "" =
      .ok (if versions.contains "3.14t" then (true, ([] : List String))
        else (false, ["Missing required free-threaded Python 3.14t"])))
    ∧ (∀ rf : String, rf ≠ "" → rf ≠ "none" → rf ≠ "3.14" → rf ≠ "3.14+" → rf ≠ "all" →
        validate_requirements matrix platforms versions "" "" rf "" = .ok (true, [])) := by
  intro matrix platforms versions
  refine ⟨?_, ?_, ?_⟩
  · by_cases h : "3.14t" ∈ versions <;>
      simp [validate_requirements, validateFlat, freethreaded_errors, h]
  · by_cases h : "3.14t" ∈ versions <;>
      simp [validate_requirements, validateFlat, freethreaded_errors, h]
  · intro rf h1 h2 h3 h4 h5
    simp [validate_requirements, validateFlat, freethreaded_errors, bne_iff_ne, beq_iff_eq,
      h1, h2, h3, h4, h5]

/-- Witness for C2 at concrete policies. -/
theorem claim_C2_witness :
    validate_requirements [] [] ["3.14t"] "" "" "3.14" "" = .ok (true, [])
    ∧ validate_requirements [] [] [] "" "" "3.15" "" = .ok (true, []) := by
  constructor
  · have h := (claim_C2 [] [] ["3.14t"]).1
    simpa using h
  · exact (claim_C2 [] [] []).2.2 "3.15" (by decide) (by decide) (by decide) (by decide)
      (by decide)

/-- C3 (counterexample): the string `42` does not parse as a sequence of
records — it is valid JSON but a bare number — and on it the validator raises
`TypeError` (iterating a number) instead of returning one failure message. -/
theorem claim_C3_cex :
    jsonLoads "42" = .ok (Json.num "42")
    ∧ validate_requirements [] [] [] "" "" "none" "42" = .error PyErr.typeError :=
  ⟨rfl, rfl⟩

/-- C3 (amended): for every non-empty structured matrix requirement string on
which JSON decoding fails, validation returns `ok = false` with exactly the
one message reporting the parse failure and raises nothing; but a string that
decodes to valid JSON that is not a sequence of records instead raises an
uncaught exception (see the counterexample). -/
theorem claim_C3 :
    ∀ (matrix : List (String × List String)) (platforms versions : List String)
      (rp rv rf rm : String) (e : Unit),
    rm ≠ "" → jsonLoads rm = .error e →
    validate_requirements matrix platforms versions rp rv rf rm =
      .ok (false, ["Invalid JSON in require-matrix: " ++ rm]) := by
  intro matrix platforms versions rp rv rf rm e h1 h2
  simp [validate_requirements, bne_iff_ne, h1, h2]

/-- Witness for C3 on a malformed JSON string. -/
theorem claim_C3_witness :
    validate_requirements [] [] [] "" "" "" "not json" =
      .ok (false, ["Invalid JSON in require-matrix: not json"]) :=
  claim_C3 [] [] [] "" "" "" "not json" () (by decide) rfl

/-- C5: in flat mode a resolved required-version label is flagged missing iff
it is absent from the observed versions and does not end in the free-threaded
suffix `t`; labels ending in `t` are never flagged missing by this check. -/
theorem claim_C5 :
    ∀ (require_python_versions : String) (versions : List String) (v : String),
    (v ∈ missing_versions require_python_versions versions ↔
      (v ∈ flat_resolved_versions require_python_versions versions ∧
        versions.contains v = false ∧ pyEndsWith v "t" = false))
    ∧ (pyEndsWith v "t" = true → v ∉ missing_versions require_python_versions versions) := by
  intro rv versions v
  have hiff : v ∈ missing_versions rv versions ↔
      (v ∈ flat_resolved_versions rv versions ∧
        versions.contains v = false ∧ pyEndsWith v "t" = false) := by
    simp [missing_versions, List.mem_filter]
  refine ⟨hiff, ?_⟩
  intro ht hmem
  have := (hiff.mp hmem).2.2
  rw [ht] at this
  exact Bool.noConfusion this

/-- Witness for C5: `3.14t` is resolved and absent yet never flagged missing. -/
theorem claim_C5_witness : "3.14t" ∉ missing_versions "3.13,3.14t" ["3.12"] :=
  (claim_C5 "3.13,3.14t" ["3.12"] "3.14t").2 rfl

/-- C6 (counterexample): the platform tag `win_amd64_arm64` starts with `win`
and contains `arm64`, yet decodes to `Windows x64`, because the `amd64`/`x64`
check precedes the `arm64` check. -/
theorem claim_C6_cex :
    (WheelInfo.mk "cp312" "cp312" "win_amd64_arm64").platform_name = "Windows x64"
    ∧ pyStartsWith "win_amd64_arm64" "win" = true
    ∧ pyContains "win_amd64_arm64" "arm64" = true
    ∧ ("Windows x64" : String) ≠ "Windows ARM64" := by
  refine ⟨rfl, rfl, rfl, by decide⟩

/-- C6 (amended): the per-OS ARM64 spelling is preserved subject to the
decoder's precedence — a tag whose lower-casing starts with `win` and
contains `arm64` but neither `amd64` nor `x64` decodes to `Windows ARM64`,
and a tag whose lower-casing contains `manylinux` and `aarch64`, does not
start with `macosx` or `win`, and contains neither `x86_64` nor `amd64`
decodes to `Linux aarch64`; in particular `win_arm64 ↦ Windows ARM64` and
`manylinux_2_17_aarch64 ↦ Linux aarch64`. -/
theorem claim_C6 :
    (∀ w : WheelInfo,
      pyStartsWith (pyLower w.platform_tag) "win" = true →
      pyContains (pyLower w.platform_tag) "arm64" = true →
      pyContains (pyLower w.platform_tag) "amd64" = false →
      pyContains (pyLower w.platform_tag) "x64" = false →
      w.platform_name = "Windows ARM64")
    ∧ (∀ w : WheelInfo,
      pyStartsWith (pyLower w.platform_tag) "macosx" = false →
      pyStartsWith (pyLower w.platform_tag) "win" = false →
      pyContains (pyLower w.platform_tag) "manylinux" = true →
      pyContains (pyLower w.platform_tag) "x86_64" = false →
      pyContains (pyLower w.platform_tag) "amd64" = false →
      pyContains (pyLower w.platform_tag) "aarch64" = true →
      w.platform_name = "Linux aarch64")
    ∧ (WheelInfo.mk "cp312" "cp312" "win_arm64").platform_name = "Windows ARM64"
    ∧ (WheelInfo.mk "cp312" "cp312" "manylinux_2_17_aarch64").platform_name =
        "Linux aarch64" := by
  refine ⟨?_, ?_, rfl, rfl⟩
  · intro w h1 h2 h3 h4
    have hm := startsWith_win_not_macosx _ h1
    simp [WheelInfo.platform_name, hm, h1, h2, h3, h4]
  · intro w h1 h2 h3 h4 h5 h6
    simp [WheelInfo.platform_name, WheelInfo.extract_arch, h1, h2, h3, h4, h5, h6]

/-- Witness for C6 at the two concrete tags of the claim. -/
theorem claim_C6_witness :
    (WheelInfo.mk "a" "b" "win_arm64").platform_name = "Windows ARM64"
    ∧ (WheelInfo.mk "a" "b" "manylinux_2_17_aarch64").platform_name = "Linux aarch64" :=
  ⟨claim_C6.1 (WheelInfo.mk "a" "b" "win_arm64") rfl rfl rfl rfl,
   claim_C6.2.1 (WheelInfo.mk "a" "b" "manylinux_2_17_aarch64") rfl rfl rfl rfl rfl rfl⟩

/-- C10: a matrix-mode record whose `platform` field is missing or the empty
string is skipped entirely — it contributes no message, and removing it from
the record list does not change the accumulated messages (so it can never by
itself make the verdict false). -/
theorem claim_C10 :
    ∀ (matrix : List (String × List String)) (platforms versions : List String)
      (kvs : List (String × Json)) (recs : List Json),
    (kvs.reverse.find? (fun kv => kv.1 == "platform") = none ∨
      (∃ k, kvs.reverse.find? (fun kv => kv.1 == "platform") = some (k, Json.str ""))) →
    processRecord matrix platforms versions (Json.obj kvs) = .ok []
    ∧ processRecords matrix platforms versions (Json.obj kvs :: recs) =
        processRecords matrix platforms versions recs := by
  intro matrix platforms versions kvs recs h
  have hrec : processRecord matrix platforms versions (Json.obj kvs) = .ok [] := by
    rcases h with h | ⟨k, h⟩ <;>
      rcases hv : kvs.reverse.find? (fun kv => kv.1 == "versions") with _ | kv <;>
        simp [processRecord, pyGet, h, hv, Json.truthy, Bind.bind, Except.bind,
          pure, Except.pure]
  refine ⟨hrec, ?_⟩
  simp [processRecords, List.foldlM_cons, hrec, Bind.bind, Except.bind, pure, Except.pure]

/-- Witness for C10 on the empty record. -/
theorem claim_C10_witness :
    processRecord [] [] [] (Json.obj []) = .ok []
    ∧ processRecords [] [] [] [Json.obj []] = processRecords [] [] [] [] :=
  claim_C10 [] [] [] [] [] (Or.inl rfl)

/-- C9: whenever `validate_requirements` returns a result (rather than
raising), the verdict is true exactly when the message list is empty — in
matrix mode, in flat mode, and on the malformed-spec path alike. -/
theorem claim_C9 :
    ∀ (matrix : List (String × List String)) (platforms versions : List String)
      (rp rv rf rm : String) (ok : Bool) (msgs : List String),
    validate_requirements matrix platforms versions rp rv rf rm = .ok (ok, msgs) →
    (ok = true ↔ msgs = []) := by
  intro matrix platforms versions rp rv rf rm ok msgs h
  unfold validate_requirements at h
  by_cases hm : rm = ""
  · rw [hm] at h
    simp [validateFlat] at h
    obtain ⟨hok, hmsgs⟩ := h
    subst hmsgs
    rw [← hok]
    simp [List.length_eq_zero]
  · rw [if_pos (by simpa [bne_iff_ne] using hm)] at h
    rcases hj : jsonLoads rm with e | j <;> rw [hj] at h
    · simp at h
      obtain ⟨hok, hmsgs⟩ := h
      subst hmsgs
      simp [← hok]
    · rcases hi : pyIter j with e2 | reqs <;>
        simp [hi, Bind.bind, Except.bind] at h
      rcases hr : processRecords matrix platforms versions reqs with e3 | errors <;>
        simp [hr, pure, Except.pure] at h
      obtain ⟨hok, hmsgs⟩ := h
      subst hmsgs
      rw [← hok]
      simp [List.length_eq_zero]

/-- Witness for C9 on an empty run. -/
theorem claim_C9_witness : (true = true ↔ ([] : List String) = []) :=
  claim_C9 [] [] [] "" "" "" "" true [] rfl

/-- C8: `sort_versions` orders every set of labels by
`(family, major, minor, freethread)` — the output is a permutation of the
input that is pairwise ordered by the sort key, PyPy labels get family rank 1
(after all standard labels), a free-threaded label sorts immediately after
its plain counterpart via freethread rank 1, unparseable labels get key
`(99, 0, 0, 0)` and hence sort last; concretely the claimed six-element sort
comes out exactly as stated. -/
theorem claim_C8 :
    sort_versions ["3.12", "3.8", "3.14t", "PyPy3.9", "3.10", "3.14"] =
      ["3.8", "3.10", "3.12", "3.14", "3.14t", "PyPy3.9"]
    ∧ (∀ versions : List String, (sort_versions versions).Perm versions)
    ∧ (∀ versions : List String, (sort_versions versions).Pairwise
        (fun a b => version_le a b = true))
    ∧ (∀ v : String, (version_sort_key v).1 = 0 ∨ (version_sort_key v).1 = 1 ∨
        version_sort_key v = (99, 0, 0, 0))
    ∧ version_sort_key "3.14" = (0, 3, 14, 0)
    ∧ version_sort_key "3.14t" = (0, 3, 14, 1)
    ∧ version_sort_key "PyPy3.9" = (1, 3, 9, 0)
    ∧ version_sort_key "not a version" = (99, 0, 0, 0) := by
  refine ⟨rfl, ?_, ?_, ?_, rfl, rfl, rfl, rfl⟩
  · intro versions
    exact stableSort_perm version_le versions
  · intro versions
    exact stableSort_pairwise version_le version_le_trans version_le_total versions
  · intro v
    rcases h1 : (if pyStartsWith v "PyPy" then matchPyPyNum v else none) with _ | ⟨M1, m1⟩
    · rcases h2 : (if pyEndsWith v "t" then matchNumDotNumT v else none) with _ | ⟨M2, m2⟩
      · rcases h3 : matchNumDotNum v with _ | ⟨M3, m3⟩
        · right; right; simp [version_sort_key, h1, h2, h3]
        · left; simp [version_sort_key, h1, h2, h3]
      · left; simp [version_sort_key, h1, h2]
    · right; left; simp [version_sort_key, h1]

/-- Witness for C8 on a singleton list. -/
theorem claim_C8_witness : (sort_versions ["3.9"]).Perm ["3.9"] :=
  claim_C8.2.1 ["3.9"]

/-- C7: the wheel-filename parser returns no-match exactly when the name does
not end in `.whl` or when, after stripping the extension, splitting on `-`
yields fewer than 5 segments; on success the returned triple is exactly the
last three segments in order `(python_tag, abi_tag, platform_tag)`. -/
theorem claim_C7 :
    ∀ filename : String,
    (parse_wheel_filename filename = none ↔
      (pyEndsWith filename ".whl" = false ∨
        (pySplit '-' (pyDropRight filename 4).toList).length < 5))
    ∧ (∀ w : WheelInfo, parse_wheel_filename filename = some w →
        ∃ pre py abi plat,
          pySplit '-' (pyDropRight filename 4).toList = pre ++ [py, abi, plat]
          ∧ w = WheelInfo.mk (String.mk py) (String.mk abi) (String.mk plat)) := by
  intro fn
  simp only [String.toList]
  by_cases he : pyEndsWith fn ".whl" = true
  · by_cases hlen : (pySplit '-' (pyDropRight fn 4).data).length < 5
    · refine ⟨by simp [parse_wheel_filename, he, hlen], ?_⟩
      intro w hw
      simp [parse_wheel_filename, he, hlen] at hw
    · have h5 : 5 ≤ (pySplit '-' (pyDropRight fn 4).data).length := Nat.le_of_not_lt hlen
      rcases hrev : (pySplit '-' (pyDropRight fn 4).data).reverse with
        _ | ⟨a, _ | ⟨b, _ | ⟨c, rest⟩⟩⟩
      · have hl := congrArg List.length hrev
        simp only [List.length_reverse, List.length_nil, List.length_cons] at hl
        omega
      · have hl := congrArg List.length hrev
        simp only [List.length_reverse, List.length_nil, List.length_cons] at hl
        omega
      · have hl := congrArg List.length hrev
        simp only [List.length_reverse, List.length_nil, List.length_cons] at hl
        omega
      · have hparse : parse_wheel_filename fn =
            some (WheelInfo.mk (String.mk c) (String.mk b) (String.mk a)) := by
          simp [parse_wheel_filename, he, hlen, hrev]
        have hparts : pySplit '-' (pyDropRight fn 4).data = rest.reverse ++ [c, b, a] := by
          have h2 := congrArg List.reverse hrev
          rw [List.reverse_reverse] at h2
          rw [h2]
          simp
        refine ⟨?_, ?_⟩
        · rw [hparse]
          simp [he, hlen]
        · intro w hw
          rw [hparse] at hw
          exact ⟨rest.reverse, c, b, a, hparts, (Option.some.inj hw).symm⟩
  · have he' : pyEndsWith fn ".whl" = false := by simpa using he
    refine ⟨by simp [parse_wheel_filename, he'], ?_⟩
    intro w hw
    simp [parse_wheel_filename, he'] at hw

/-- C4: every standard-dialect open-ended token `<major>.<minor>+` resolves
to the labels `<major>.<k>` for `k` from the token's minor up to one past the
maximum same-major minor parsed from the observed version set (the bound is
at least the token's own minor, dominates every observed same-major minor,
and is itself the initial minor or an observed one); concretely `3.12+`
against observed max minor 14 yields `["3.12", "3.13", "3.14", "3.15"]`. -/
theorem claim_C4 :
    parse_version_requirement "3.12+" ["3.8", "3.12", "3.14"] =
      ["3.12", "3.13", "3.14", "3.15"]
    ∧ (∀ (requirement : String) (available : List String) (major minor : Nat),
        pyStartsWith (pyStrip requirement) "PyPy" = false →
        pyEndsWith (pyStrip requirement) "+" = true →
        matchNumDotNum (pyStrip (pyDropRight (pyStrip requirement) 1)) = some (major, minor) →
        parse_version_requirement requirement available =
          (List.range' minor (maxAvailMinor matchNumDotNum major minor available + 2 - minor)).map
            (fun k => toString major ++ "." ++ toString k)
        ∧ minor ≤ maxAvailMinor matchNumDotNum major minor available
        ∧ (∀ v ∈ available, ∀ k, matchNumDotNum v = some (major, k) →
            k ≤ maxAvailMinor matchNumDotNum major minor available)
        ∧ (maxAvailMinor matchNumDotNum major minor available = minor ∨
          ∃ v ∈ available, matchNumDotNum v =
            some (major, maxAvailMinor matchNumDotNum major minor available))) := by
  refine ⟨rfl, ?_⟩
  intro req avail major minor h1 h2 h3
  refine ⟨?_, le_maxAvailMinor matchNumDotNum major avail minor,
    fun v hv k hk => maxAvailMinor_ge matchNumDotNum major avail minor v hv k hk,
    maxAvailMinor_attained matchNumDotNum major avail minor⟩
  simp [parse_version_requirement, h1, h2, h3]

/-- Witness for C4 on a token with surrounding whitespace. -/
theorem claim_C4_witness :
    parse_version_requirement " 3.10+ " ["3.12"] =
      (List.range' 10 (maxAvailMinor matchNumDotNum 3 10 ["3.12"] + 2 - 10)).map
        (fun k => toString 3 ++ "." ++ toString k)
    ∧ 10 ≤ maxAvailMinor matchNumDotNum 3 10 ["3.12"] :=
  ⟨(claim_C4.2 " 3.10+ " ["3.12"] 3 10 rfl rfl rfl).1,
   (claim_C4.2 " 3.10+ " ["3.12"] 3 10 rfl rfl rfl).2.1⟩

/-- Witness for C7: a short name is rejected, a well-formed name yields its
last three segments. -/
theorem claim_C7_witness :
    parse_wheel_filename "invalid.whl" = none
    ∧ (∃ pre py abi plat,
        pySplit '-' (pyDropRight "pkg-1.0.0-cp312-cp312-win_amd64.whl" 4).toList =
          pre ++ [py, abi, plat]
        ∧ WheelInfo.mk "cp312" "cp312" "win_amd64" =
            WheelInfo.mk (String.mk py) (String.mk abi) (String.mk plat)) :=
  ⟨(claim_C7 "invalid.whl").1.mpr (Or.inr (by decide)),
   (claim_C7 "pkg-1.0.0-cp312-cp312-win_amd64.whl").2
     (WheelInfo.mk "cp312" "cp312" "win_amd64") rfl⟩

end WheelsCI
